import Mathlib

/-!
Verification of the xtask command-construction and fan-out subsystem
(`src/xtask/src/cargo_commands.rs`) of the rtic repository.

The dispatcher (`command_parser`) executes an external process; it lives
outside `src/`, so it is abstracted as an environment `Env` mapping a
command and an overwrite flag to a success/failure outcome.  Each
orchestration function from `cargo_commands.rs` is embedded as a Lean
function, parameterised by such an environment, returning the ordered
list of dispatched commands (the trace), the list of error messages
logged via `error!`, and the `anyhow::Result` value it returns.

Rayon's `par_iter().for_each` over the example list is modelled as a
(sequential) concatenation over the list: each closure body touches no
shared mutable state besides the log, so per-example traces and logs are
functions of that example alone, and the model records them in list
order.
-/

namespace Rtic

/-- Modelled from the spec: the closed hardware-backend enumeration
(`Backends` in `argument_parsing.rs`, which is not under `src/`);
one variant per supported architecture family. -/
inductive Backends
  | Thumbv6
  | Thumbv7
  | Thumbv8Base
  | Thumbv8Main
deriving DecidableEq, Fintype

/-- Modelled from the spec: a `Target` is a toolchain target triple plus a
backend capability flag used for feature gating, in 1:1 correspondence
with `Backends` (the real `Target` type is not under `src/`). -/
structure Target where
  triple : String
  capability : String
deriving DecidableEq

/-- Modelled from the spec: `Backends::to_target`, the pure total
backend-to-target resolver (its source is not under `src/`); distinct
backends resolve to distinct targets. -/
def Backends.to_target : Backends → Target
  | .Thumbv6 => ⟨"thumbv6m-none-eabi", "thumbv6-backend"⟩
  | .Thumbv7 => ⟨"thumbv7m-none-eabi", "thumbv7-backend"⟩
  | .Thumbv8Base => ⟨"thumbv8m.base-none-eabi", "thumbv8base-backend"⟩
  | .Thumbv8Main => ⟨"thumbv8m.main-none-eabi", "thumbv8main-backend"⟩

/-- Modelled from the spec: `Backends::to_rtic_feature`, the
backend-specific rtic feature flag (its source is not under `src/`);
each backend contributes its own flag. -/
def Backends.to_rtic_feature : Backends → String
  | .Thumbv6 => "thumbv6-backend"
  | .Thumbv7 => "thumbv7-backend"
  | .Thumbv8Base => "thumbv8base-backend"
  | .Thumbv8Main => "thumbv8main-backend"

/-- Feature sets are ordered, deduplicated lists of feature-flag strings. -/
abbrev FeatureSet := List String

/-- Modelled from the spec: `Target::and_features` combines the target's
backend capability flag with a further flag into an ordered,
deduplicated FeatureSet (its source is not under `src/`). -/
def Target.and_features (t : Target) (f : String) : FeatureSet :=
  if f = t.capability then [t.capability] else [t.capability, f]

/-- The fixed, ordered workspace package list (`Package` in
`argument_parsing.rs`); the six variants appear literally in
`cargo_test` in `cargo_commands.rs`. -/
inductive Package
  | Rtic
  | RticCommon
  | RticMacros
  | RticMonotonics
  | RticSync
  | RticTime
deriving DecidableEq, Fintype

/-- Modelled from the spec: the per-package backend-specific flags used by
the feature extractor; only the core `rtic` package carries the
backend-specific flag, the remaining packages are backend-agnostic. -/
def Package.backendFlags : Package → Backends → FeatureSet
  | .Rtic, b => [b.to_rtic_feature]
  | _, _ => []

/-- Modelled from the spec: `package_feature_extractor(target, package,
backend)` (its source is not under `src/`): for a single named package it
returns that package's backend-specific flags; for the all-packages
selector it returns the backend capability flag combined with the
backend's rtic feature.  The Rust function receives a `&PackageOpt`
and reads only its `package : Option<Package>` field, which is the
argument taken here. -/
def package_feature_extractor (target : Target) (package : Option Package)
    (backend : Backends) : Option FeatureSet :=
  match package with
  | some p => some (p.backendFlags backend)
  | none => some (target.and_features backend.to_rtic_feature)

/-- The flags belonging exclusively to one backend: its rtic feature flag
(which in this model also serves as the target's capability flag). -/
def exclusiveFlags (b : Backends) : FeatureSet :=
  [b.to_rtic_feature]

/-- Build mode from `command.rs`: two values, debug and release. -/
inductive BuildMode
  | Debug
  | Release
deriving DecidableEq

/-- Selector between the check and build operations (`BuildOrCheck` in
`argument_parsing.rs`). -/
inductive BuildOrCheck
  | Check
  | Build
deriving DecidableEq

/-- Passthrough arguments forwarded verbatim to the toolchain. -/
abbrev ExtraArguments := List String

/-- The command model (`CargoCommand` in `command.rs`): one variant per
operation, carrying exactly the fields the corresponding construction
sites in `cargo_commands.rs` fill in.  Only the variants constructed in
`cargo_commands.rs` by the functions under study are modelled; the test
command stands for the `TestMetadata::match_package(package, backend)`
result. -/
inductive CargoCommand
  | Check (cargoarg : Option String) (package : Option Package) (target : Target)
      (features : Option FeatureSet) (mode : BuildMode)
  | Build (cargoarg : Option String) (package : Option Package) (target : Target)
      (features : Option FeatureSet) (mode : BuildMode)
  | ExampleCheck (cargoarg : Option String) (ex : String) (target : Target)
      (features : Option FeatureSet) (mode : BuildMode)
  | ExampleBuild (cargoarg : Option String) (ex : String) (target : Target)
      (features : Option FeatureSet) (mode : BuildMode)
  | Qemu (cargoarg : Option String) (ex : String) (target : Target)
      (features : Option FeatureSet) (mode : BuildMode)
  | ExampleSize (cargoarg : Option String) (ex : String) (target : Target)
      (features : Option FeatureSet) (mode : BuildMode) (arguments : Option ExtraArguments)
  | Test (package : Package) (backend : Backends)
deriving DecidableEq

/-- The build mode carried by a command, when its variant has one. -/
def CargoCommand.mode : CargoCommand → Option BuildMode
  | .Check _ _ _ _ m => some m
  | .Build _ _ _ _ m => some m
  | .ExampleCheck _ _ _ _ m => some m
  | .ExampleBuild _ _ _ _ m => some m
  | .Qemu _ _ _ _ m => some m
  | .ExampleSize _ _ _ _ m _ => some m
  | .Test _ _ => none

/-- One dispatch to the external dispatcher: the command together with the
overwrite flag passed alongside it. -/
structure Dispatch where
  cmd : CargoCommand
  ow : Bool
deriving DecidableEq

/-- The external dispatcher, abstracted: maps a command and an overwrite
flag to success or an error message.  It stands for the out-of-scope
`command_parser(globals, cmd, overwrite)` call. -/
abbrev Env := CargoCommand → Bool → Except String Unit

/-- Result of running one orchestration function: the ordered dispatch
trace, the messages logged via `error!`, and the returned
`anyhow::Result`. -/
structure RunResult where
  trace : List Dispatch
  log : List String
  result : Except String Unit

/-- Errors produced by one dispatch under the logging pattern
`if let Err(err) = ... \x7b error!("\x7berr\x7d") \x7d`. -/
def logOf (env : Env) (c : CargoCommand) (ow : Bool) : List String :=
  match env c ow with
  | .ok _ => []
  | .error e => [e]

/-- Embedding of `cargo` (`cargo_commands.rs:12`): build or check one
package selection; the single dispatch's outcome is propagated with `?`. -/
def cargo (env : Env) (operation : BuildOrCheck) (cargoarg : Option String)
    (package : Option Package) (backend : Backends) : RunResult :=
  let target := backend.to_target
  let features := package_feature_extractor target package backend
  let command :=
    match operation with
    | .Check => CargoCommand.Check cargoarg package target features .Release
    | .Build => CargoCommand.Build cargoarg package target features .Release
  { trace := [⟨command, false⟩], log := [], result := env command false }

/-- The command constructed per example by `cargo_example`
(`cargo_commands.rs:55`). -/
def cargo_example_cmd (operation : BuildOrCheck) (cargoarg : Option String)
    (backend : Backends) (ex : String) : CargoCommand :=
  let features := some (backend.to_target.and_features backend.to_rtic_feature)
  match operation with
  | .Check => CargoCommand.ExampleCheck cargoarg ex backend.to_target features .Release
  | .Build => CargoCommand.ExampleBuild cargoarg ex backend.to_target features .Release

/-- Embedding of `cargo_example` (`cargo_commands.rs:45`): one dispatch per
example over the parallel iterator, each failure logged, and `Ok(())`
returned unconditionally. -/
def cargo_example (env : Env) (operation : BuildOrCheck) (cargoarg : Option String)
    (backend : Backends) (examples : List String) : RunResult :=
  { trace := examples.map fun ex => ⟨cargo_example_cmd operation cargoarg backend ex, false⟩
    log := examples.flatMap fun ex => logOf env (cargo_example_cmd operation cargoarg backend ex) false
    result := .ok () }

/-- The first-stage build command of `run_test` and `build_and_check_size`
(`cargo_commands.rs:205` and `cargo_commands.rs:245`): `cargoarg` is the
literal `Some("--quiet")`. -/
def testBuildCmd (backend : Backends) (ex : String) : CargoCommand :=
  .ExampleBuild (some "--quiet") ex backend.to_target
    (some (backend.to_target.and_features backend.to_rtic_feature)) .Release

/-- The second-stage emulate command of `run_test`
(`cargo_commands.rs:216`): it carries the caller's `cargoarg`. -/
def testQemuCmd (cargoarg : Option String) (backend : Backends) (ex : String) :
    CargoCommand :=
  .Qemu cargoarg ex backend.to_target
    (some (backend.to_target.and_features backend.to_rtic_feature)) .Release

/-- The second-stage size command of `build_and_check_size`
(`cargo_commands.rs:256`): it carries the caller's `cargoarg` and the
passthrough arguments. -/
def sizeCmd (cargoarg : Option String) (backend : Backends) (ex : String)
    (arguments : Option ExtraArguments) : CargoCommand :=
  .ExampleSize cargoarg ex backend.to_target
    (some (backend.to_target.and_features backend.to_rtic_feature)) .Release arguments

/-- Embedding of `run_test` (`cargo_commands.rs:194`): per example, the
build command is dispatched (failure logged), then the emulate command is
dispatched (failure logged) with the caller's overwrite flag; `Ok(())` is
returned unconditionally. -/
def run_test (env : Env) (cargoarg : Option String) (backend : Backends)
    (examples : List String) (overwrite : Bool) : RunResult :=
  { trace := examples.flatMap fun ex =>
      [⟨testBuildCmd backend ex, false⟩, ⟨testQemuCmd cargoarg backend ex, overwrite⟩]
    log := examples.flatMap fun ex =>
      logOf env (testBuildCmd backend ex) false ++
        logOf env (testQemuCmd cargoarg backend ex) overwrite
    result := .ok () }

/-- Embedding of `build_and_check_size` (`cargo_commands.rs:233`): per
example, the build command is dispatched (failure logged), then the size
command is dispatched (failure logged) with overwrite `false`; `Ok(())`
is returned unconditionally. -/
def build_and_check_size (env : Env) (cargoarg : Option String) (backend : Backends)
    (examples : List String) (arguments : Option ExtraArguments) : RunResult :=
  { trace := examples.flatMap fun ex =>
      [⟨testBuildCmd backend ex, false⟩, ⟨sizeCmd cargoarg backend ex arguments, false⟩]
    log := examples.flatMap fun ex =>
      logOf env (testBuildCmd backend ex) false ++
        logOf env (sizeCmd cargoarg backend ex arguments) false
    result := .ok () }

/-- Modelled from the spec: `TestMetadata::match_package(package, backend)`
(its source is not under `src/`) yields the test command for the given
package and backend. -/
def match_package (package : Package) (backend : Backends) : CargoCommand :=
  .Test package backend

/-- The fixed workspace package list iterated by `cargo_test`
(`cargo_commands.rs:155`), in its literal order. -/
def allPackages : List Package :=
  [.Rtic, .RticCommon, .RticMacros, .RticMonotonics, .RticSync, .RticTime]

/-- Embedding of `cargo_test` (`cargo_commands.rs:145`): with a named
package the single dispatch's outcome is propagated with `?`; with no
package each package of the fixed list is dispatched in order, failures
are pushed to a per-iteration vector and logged, and `Ok(())` is
returned. -/
def cargo_test (env : Env) (package : Option Package) (backend : Backends) : RunResult :=
  match package with
  | some p =>
    { trace := [⟨match_package p backend, false⟩], log := [],
      result := env (match_package p backend) false }
  | none =>
    { trace := allPackages.map fun p => ⟨match_package p backend, false⟩
      log := allPackages.flatMap fun p => logOf env (match_package p backend) false
      result := .ok () }


/-! Concrete environments used to instantiate the theorems below. -/

/-- An environment in which every dispatch succeeds. -/
def envOk : Env := fun _ _ => .ok ()

/-- An environment in which every build of the example named `fail-ex`
fails with the message `build failed`, and every other dispatch
succeeds. -/
def envFailBuild : Env := fun c _ =>
  match c with
  | .ExampleBuild _ ex _ _ _ => if ex = "fail-ex" then .error "build failed" else .ok ()
  | _ => .ok ()

/-- An environment in which every test command fails with the message
`test failed`, and every other dispatch succeeds. -/
def envFailTest : Env := fun c _ =>
  match c with
  | .Test _ _ => .error "test failed"
  | _ => .ok ()

/-! Claims -/

/-- C1, counterexample: in `run_test` and `build_and_check_size` a failed
build does not suppress the dependent step.  With an environment failing
the build of `fail-ex`, the emulate (resp. size) dispatch for `fail-ex`
still appears in the trace, contradicting the claim that it is never
dispatched. -/
theorem dependent_step_dispatched_after_build_failure :
    envFailBuild (testBuildCmd .Thumbv6 "fail-ex") false = .error "build failed" ∧
    Dispatch.mk (testQemuCmd none .Thumbv6 "fail-ex") false ∈
      (run_test envFailBuild none .Thumbv6 ["fail-ex", "ok-ex"] false).trace ∧
    Dispatch.mk (sizeCmd none .Thumbv6 "fail-ex" none) false ∈
      (build_and_check_size envFailBuild none .Thumbv6 ["fail-ex", "ok-ex"] none).trace := by
  refine ⟨rfl, ?_, ?_⟩ <;> decide

/-- C1, amended: if the build step fails for an example, the failure is
logged and the dependent emulate (resp. size) step for that same example
is still dispatched, with the caller's arguments; sibling examples are
unaffected (the statement holds for every example of the list under
every environment). -/
theorem build_failure_logged_and_dependent_still_dispatched
    (env : Env) (cargoarg : Option String) (backend : Backends)
    (examples : List String) (overwrite : Bool) (arguments : Option ExtraArguments)
    (ex e : String) (hex : ex ∈ examples)
    (hfail : env (testBuildCmd backend ex) false = .error e) :
    (e ∈ (run_test env cargoarg backend examples overwrite).log ∧
      Dispatch.mk (testQemuCmd cargoarg backend ex) overwrite ∈
        (run_test env cargoarg backend examples overwrite).trace) ∧
    (e ∈ (build_and_check_size env cargoarg backend examples arguments).log ∧
      Dispatch.mk (sizeCmd cargoarg backend ex arguments) false ∈
        (build_and_check_size env cargoarg backend examples arguments).trace) := by
  refine ⟨⟨?_, ?_⟩, ⟨?_, ?_⟩⟩ <;>
    simp only [run_test, build_and_check_size, List.mem_flatMap]
  · exact ⟨ex, hex, by simp [logOf, hfail]⟩
  · exact ⟨ex, hex, by simp⟩
  · exact ⟨ex, hex, by simp [logOf, hfail]⟩
  · exact ⟨ex, hex, by simp⟩

/-- C1, witness for the amended theorem at a concrete input. -/
theorem build_failure_logged_and_dependent_still_dispatched_witness :
    "fail-ex" ∈ ["fail-ex", "ok-ex"] ∧
    envFailBuild (testBuildCmd .Thumbv6 "fail-ex") false = .error "build failed" ∧
    "build failed" ∈ (run_test envFailBuild none .Thumbv6 ["fail-ex", "ok-ex"] false).log :=
  ⟨by decide, rfl,
    (build_failure_logged_and_dependent_still_dispatched envFailBuild none .Thumbv6
      ["fail-ex", "ok-ex"] false none "fail-ex" "build failed"
      (by decide) rfl).1.1⟩

/-- C2, counterexample: a unit failure does not yield an error overall
status.  With an environment failing the build of `fail-ex`, both
`run_test` and `cargo_example` log the failure yet still return `Ok(())`,
contradicting the claimed equivalence between overall success and
all-units success. -/
theorem fanout_ok_despite_unit_failure :
    (run_test envFailBuild none .Thumbv6 ["fail-ex"] false).log = ["build failed"] ∧
    (run_test envFailBuild none .Thumbv6 ["fail-ex"] false).result = .ok () ∧
    (cargo_example envFailBuild .Build none .Thumbv6 ["fail-ex"]).log = ["build failed"] ∧
    (cargo_example envFailBuild .Build none .Thumbv6 ["fail-ex"]).result = .ok () := by
  exact ⟨by decide, rfl, by decide, rfl⟩

/-- C2, amended: the fan-out functions `cargo_example`, `run_test` and
`build_and_check_size` always return success, whatever the per-unit
outcomes are; per-unit failures are reported only through the error log
and are never reflected in the returned status. -/
theorem fanout_functions_always_return_ok (env : Env) (operation : BuildOrCheck)
    (cargoarg : Option String) (backend : Backends) (examples : List String)
    (overwrite : Bool) (arguments : Option ExtraArguments) :
    (cargo_example env operation cargoarg backend examples).result = .ok () ∧
    (run_test env cargoarg backend examples overwrite).result = .ok () ∧
    (build_and_check_size env cargoarg backend examples arguments).result = .ok () :=
  ⟨rfl, rfl, rfl⟩

/-- C3: every submitted example is attempted by each of the three fan-out
functions (`cargo_example`, `run_test`, `build_and_check_size`), and each
per-example failure of each stage (the single check/build command, the
build stage, and the emulate/size stage) is reported individually in the
log; since the statement holds for every environment, in particular for
environments failing any other example, one example's failure never
prevents the dispatch or the reporting of another example's
operation. -/
theorem every_example_attempted_and_failures_logged (env : Env)
    (operation : BuildOrCheck) (cargoarg : Option String) (backend : Backends)
    (examples : List String) (overwrite : Bool) (arguments : Option ExtraArguments)
    (ex : String) (hex : ex ∈ examples) :
    (Dispatch.mk (cargo_example_cmd operation cargoarg backend ex) false ∈
        (cargo_example env operation cargoarg backend examples).trace ∧
      ∀ e, env (cargo_example_cmd operation cargoarg backend ex) false = .error e →
        e ∈ (cargo_example env operation cargoarg backend examples).log) ∧
    (Dispatch.mk (testBuildCmd backend ex) false ∈
        (run_test env cargoarg backend examples overwrite).trace ∧
      Dispatch.mk (testQemuCmd cargoarg backend ex) overwrite ∈
        (run_test env cargoarg backend examples overwrite).trace ∧
      (∀ e, env (testBuildCmd backend ex) false = .error e →
        e ∈ (run_test env cargoarg backend examples overwrite).log) ∧
      ∀ e, env (testQemuCmd cargoarg backend ex) overwrite = .error e →
        e ∈ (run_test env cargoarg backend examples overwrite).log) ∧
    (Dispatch.mk (testBuildCmd backend ex) false ∈
        (build_and_check_size env cargoarg backend examples arguments).trace ∧
      Dispatch.mk (sizeCmd cargoarg backend ex arguments) false ∈
        (build_and_check_size env cargoarg backend examples arguments).trace ∧
      (∀ e, env (testBuildCmd backend ex) false = .error e →
        e ∈ (build_and_check_size env cargoarg backend examples arguments).log) ∧
      ∀ e, env (sizeCmd cargoarg backend ex arguments) false = .error e →
        e ∈ (build_and_check_size env cargoarg backend examples arguments).log) := by
  refine ⟨⟨?_, fun e he => ?_⟩, ⟨?_, ?_, fun e he => ?_, fun e he => ?_⟩,
    ⟨?_, ?_, fun e he => ?_, fun e he => ?_⟩⟩ <;>
    simp only [cargo_example, run_test, build_and_check_size, List.mem_flatMap,
      List.mem_map]
  · exact ⟨ex, hex, rfl⟩
  · exact ⟨ex, hex, by simp [logOf, he]⟩
  · exact ⟨ex, hex, by simp⟩
  · exact ⟨ex, hex, by simp⟩
  · exact ⟨ex, hex, by simp [logOf, he]⟩
  · exact ⟨ex, hex, by simp [logOf, he]⟩
  · exact ⟨ex, hex, by simp⟩
  · exact ⟨ex, hex, by simp⟩
  · exact ⟨ex, hex, by simp [logOf, he]⟩
  · exact ⟨ex, hex, by simp [logOf, he]⟩

/-- C3, witness: with the environment failing `fail-ex`, the sibling
example `ok-ex` is still dispatched by `run_test` and its size command is
still dispatched by `build_and_check_size`. -/
theorem every_example_attempted_and_failures_logged_witness :
    "ok-ex" ∈ ["fail-ex", "ok-ex"] ∧
    Dispatch.mk (testBuildCmd .Thumbv6 "ok-ex") false ∈
      (run_test envFailBuild none .Thumbv6 ["fail-ex", "ok-ex"] false).trace ∧
    Dispatch.mk (sizeCmd none .Thumbv6 "ok-ex" none) false ∈
      (build_and_check_size envFailBuild none .Thumbv6 ["fail-ex", "ok-ex"] none).trace :=
  ⟨by decide,
    (every_example_attempted_and_failures_logged envFailBuild .Build none .Thumbv6
      ["fail-ex", "ok-ex"] false none "ok-ex" (by decide)).2.1.1,
    (every_example_attempted_and_failures_logged envFailBuild .Build none .Thumbv6
      ["fail-ex", "ok-ex"] false none "ok-ex" (by decide)).2.2.2.1⟩

/-- C4: with no package selected, `cargo_test` dispatches the test command
exactly once per package of the fixed workspace list, in the list's
defined order, and a failing package's test does not terminate the
iteration: the trace is the full six-package sequence for every
environment, and every failure is reported in the log. -/
theorem cargo_test_all_packages_in_order (env : Env) (backend : Backends) :
    (cargo_test env none backend).trace =
      [Dispatch.mk (match_package .Rtic backend) false,
       Dispatch.mk (match_package .RticCommon backend) false,
       Dispatch.mk (match_package .RticMacros backend) false,
       Dispatch.mk (match_package .RticMonotonics backend) false,
       Dispatch.mk (match_package .RticSync backend) false,
       Dispatch.mk (match_package .RticTime backend) false] ∧
    ∀ p e, p ∈ allPackages → env (match_package p backend) false = .error e →
      e ∈ (cargo_test env none backend).log := by
  refine ⟨rfl, fun p e hp he => ?_⟩
  simp only [cargo_test, allPackages, List.mem_flatMap]
  exact ⟨p, hp, by simp [logOf, he]⟩

/-- C4, witness: under an environment failing every test command, the
trace is still the full ordered six-package sequence and the failure of
the first package is logged. -/
theorem cargo_test_all_packages_in_order_witness :
    (cargo_test envFailTest none .Thumbv6).trace =
      [Dispatch.mk (match_package .Rtic .Thumbv6) false,
       Dispatch.mk (match_package .RticCommon .Thumbv6) false,
       Dispatch.mk (match_package .RticMacros .Thumbv6) false,
       Dispatch.mk (match_package .RticMonotonics .Thumbv6) false,
       Dispatch.mk (match_package .RticSync .Thumbv6) false,
       Dispatch.mk (match_package .RticTime .Thumbv6) false] ∧
    Package.Rtic ∈ allPackages ∧
    "test failed" ∈ (cargo_test envFailTest none .Thumbv6).log :=
  ⟨(cargo_test_all_packages_in_order envFailTest .Thumbv6).1, by decide,
    (cargo_test_all_packages_in_order envFailTest .Thumbv6).2 .Rtic "test failed"
      (by decide) rfl⟩

/-- C5: every command constructed by `cargo`, `cargo_example`, `run_test`
and `build_and_check_size` carries build mode `Release`. -/
theorem constructed_operations_are_release (env : Env) (operation : BuildOrCheck)
    (cargoarg : Option String) (package : Option Package) (backend : Backends)
    (examples : List String) (overwrite : Bool) (arguments : Option ExtraArguments) :
    (∀ d ∈ (cargo env operation cargoarg package backend).trace,
        d.cmd.mode = some .Release) ∧
    (∀ d ∈ (cargo_example env operation cargoarg backend examples).trace,
        d.cmd.mode = some .Release) ∧
    (∀ d ∈ (run_test env cargoarg backend examples overwrite).trace,
        d.cmd.mode = some .Release) ∧
    (∀ d ∈ (build_and_check_size env cargoarg backend examples arguments).trace,
        d.cmd.mode = some .Release) := by
  refine ⟨fun d hd => ?_, fun d hd => ?_, fun d hd => ?_, fun d hd => ?_⟩
  · simp only [cargo, List.mem_singleton] at hd
    subst hd
    cases operation <;> rfl
  · simp only [cargo_example, List.mem_map] at hd
    obtain ⟨ex, -, rfl⟩ := hd
    cases operation <;> rfl
  · simp only [run_test, List.mem_flatMap, List.mem_cons, List.not_mem_nil,
      or_false] at hd
    obtain ⟨ex, -, hd⟩ := hd
    rcases hd with h | h
    · subst h; rfl
    · subst h; rfl
  · simp only [build_and_check_size, List.mem_flatMap, List.mem_cons,
      List.not_mem_nil, or_false] at hd
    obtain ⟨ex, -, hd⟩ := hd
    rcases hd with h | h
    · subst h; rfl
    · subst h; rfl

/-- C5, witness at a concrete dispatch of each function. -/
theorem constructed_operations_are_release_witness :
    Dispatch.mk (testBuildCmd .Thumbv6 "a") false ∈
      (run_test envOk none .Thumbv6 ["a"] false).trace ∧
    (Dispatch.mk (testBuildCmd .Thumbv6 "a") false).cmd.mode = some .Release :=
  ⟨by decide,
    (constructed_operations_are_release envOk .Build none none .Thumbv6 ["a"] false
      none).2.2.1 (Dispatch.mk (testBuildCmd .Thumbv6 "a") false) (by decide)⟩

/-- C6: no feature flag belonging exclusively to a different backend is
present in a FeatureSet produced for backend `b`, by either production
route (the package feature extractor, or the target's capability flag
combined with the backend's rtic feature as done for examples). -/
theorem no_foreign_backend_flags (b bq : Backends) (p : Option Package) (f : String)
    (hne : b ≠ bq) (hf : f ∈ exclusiveFlags bq) :
    f ∉ (package_feature_extractor b.to_target p b).getD [] ∧
    f ∉ b.to_target.and_features b.to_rtic_feature := by
  simp only [exclusiveFlags, List.mem_singleton] at hf
  subst hf
  revert hne
  revert p
  revert b bq
  decide

/-- C6, witness: the flag exclusive to Thumbv7 is absent from the
FeatureSet produced for Thumbv6 and the rtic package. -/
theorem no_foreign_backend_flags_witness :
    Backends.Thumbv6 ≠ Backends.Thumbv7 ∧
    Backends.Thumbv7.to_rtic_feature ∈ exclusiveFlags .Thumbv7 ∧
    Backends.Thumbv7.to_rtic_feature ∉
      (package_feature_extractor Backends.Thumbv6.to_target (some .Rtic)
        .Thumbv6).getD [] :=
  ⟨by decide, by decide,
    (no_foreign_backend_flags .Thumbv6 .Thumbv7 (some .Rtic)
      Backends.Thumbv7.to_rtic_feature (by decide) (by decide)).1⟩

/-- C7: feature extraction is deterministic: two calls with identical
inputs produce identical FeatureSets with identical flag ordering, for
both the package feature extractor and the example-level
`and_features` route. -/
theorem feature_extraction_deterministic (t1 t2 : Target) (p1 p2 : Option Package)
    (b1 b2 : Backends) (ht : t1 = t2) (hp : p1 = p2) (hb : b1 = b2) :
    package_feature_extractor t1 p1 b1 = package_feature_extractor t2 p2 b2 ∧
    t1.and_features b1.to_rtic_feature = t2.and_features b2.to_rtic_feature := by
  subst ht
  subst hp
  subst hb
  exact ⟨rfl, rfl⟩

/-- C7, witness at a concrete input. -/
theorem feature_extraction_deterministic_witness :
    package_feature_extractor Backends.Thumbv6.to_target (some .Rtic) .Thumbv6 =
      package_feature_extractor Backends.Thumbv6.to_target (some .Rtic) .Thumbv6 :=
  (feature_extraction_deterministic Backends.Thumbv6.to_target
    Backends.Thumbv6.to_target (some .Rtic) (some .Rtic) .Thumbv6 .Thumbv6
    rfl rfl rfl).1

/-- C8: backend-to-target resolution is injective (distinct backends
resolve to distinct targets) and total over the closed backend
enumeration, with no failure mode (a target exists for every backend). -/
theorem to_target_injective_and_total (b1 b2 : Backends) (hne : b1 ≠ b2) :
    b1.to_target ≠ b2.to_target ∧ ∀ b : Backends, ∃ t : Target, b.to_target = t := by
  refine ⟨?_, fun b => ⟨b.to_target, rfl⟩⟩
  revert hne
  revert b1 b2
  decide

/-- C8, witness at a concrete pair of distinct backends. -/
theorem to_target_injective_and_total_witness :
    Backends.Thumbv6 ≠ Backends.Thumbv7 ∧
    Backends.Thumbv6.to_target ≠ Backends.Thumbv7.to_target :=
  ⟨by decide, (to_target_injective_and_total .Thumbv6 .Thumbv7 (by decide)).1⟩

/-- C9: in `run_test` and `build_and_check_size` the first-stage build
command of every example carries `cargoarg = Some("--quiet")` and is
dispatched with overwrite `false`, whatever the caller supplied; the
caller's `cargoarg` (and, for `run_test`, the caller's overwrite flag)
appear only on the second-stage emulate/size command. -/
theorem first_stage_quiet_second_stage_caller_args (env : Env)
    (cargoarg : Option String) (backend : Backends) (examples : List String)
    (overwrite : Bool) (arguments : Option ExtraArguments) :
    (run_test env cargoarg backend examples overwrite).trace =
      examples.flatMap (fun ex =>
        [Dispatch.mk (CargoCommand.ExampleBuild (some "--quiet") ex backend.to_target
            (some (backend.to_target.and_features backend.to_rtic_feature)) .Release)
            false,
         Dispatch.mk (CargoCommand.Qemu cargoarg ex backend.to_target
            (some (backend.to_target.and_features backend.to_rtic_feature)) .Release)
            overwrite]) ∧
    (build_and_check_size env cargoarg backend examples arguments).trace =
      examples.flatMap (fun ex =>
        [Dispatch.mk (CargoCommand.ExampleBuild (some "--quiet") ex backend.to_target
            (some (backend.to_target.and_features backend.to_rtic_feature)) .Release)
            false,
         Dispatch.mk (CargoCommand.ExampleSize cargoarg ex backend.to_target
            (some (backend.to_target.and_features backend.to_rtic_feature)) .Release
            arguments)
            false]) :=
  ⟨rfl, rfl⟩

/-- C10: `cargo_test` handles failures asymmetrically: with a named
package a failing test command makes it return that very error, while
with no package selected it returns success under every environment,
however many packages fail. -/
theorem cargo_test_failure_asymmetry (env : Env) (p : Package) (backend : Backends)
    (e : String) (hfail : env (match_package p backend) false = .error e) :
    (cargo_test env (some p) backend).result = .error e ∧
    ∀ env2 : Env, (cargo_test env2 none backend).result = .ok () :=
  ⟨by simp [cargo_test, hfail], fun _ => rfl⟩

/-- C10, witness: under the environment failing every test command, the
single-package run returns the error while the all-packages run returns
success. -/
theorem cargo_test_failure_asymmetry_witness :
    envFailTest (match_package .Rtic .Thumbv6) false = .error "test failed" ∧
    (cargo_test envFailTest (some .Rtic) .Thumbv6).result = .error "test failed" ∧
    (cargo_test envFailTest none .Thumbv6).result = .ok () :=
  ⟨rfl, (cargo_test_failure_asymmetry envFailTest .Rtic .Thumbv6 "test failed" rfl).1,
    (cargo_test_failure_asymmetry envFailTest .Rtic .Thumbv6 "test failed" rfl).2
      envFailTest⟩

end Rtic
